import Mathlib

/-!
Verification of the OpenClaw glasses gateway client.

The repository contains two versions of the gateway WebSocket client
(both in src/src/handlers/transcription.ts): an earlier one here called
"version B" (the document also defining maxReconnectAttempts) and a later
one called "version A" (the document defining requestPairing).  Both are
embedded below; each definition's comment names the source lines it
translates.
-/

set_option maxRecDepth 100000

namespace OpenClawGlasses

/-- JavaScript string truthiness fallback: a || b is b when a is the empty
string, else a. -/
def jsOr (a b : String) : String := if a = "" then b else a

/-! ## Signature message construction

GatewayClient.sendSignedConnect, version A lines 508-521 and version B
lines 1011-1022 (the two versions build the identical array and join it
with "|"). -/

/-- The canonical signature message: the fixed-order array
[v2, deviceId, cli, backend, role, scopes.join(","), String(signedAtMs),
token, nonce] joined with "|". -/
def buildSignatureMessage (deviceId role : String) (scopes : List String)
    (signedAtMs : Nat) (token nonce : String) : String :=
  String.intercalate "|"
    ["v2", deviceId, "cli", "backend", role,
     String.intercalate "," scopes, toString signedAtMs, token, nonce]

/-! ## Reconnection supervisor

GatewayClient.scheduleReconnect, version A lines 468-496 and version B
lines 973-1000.  Each is modelled as a pure function of the mutable fields
it reads, returning the attempt count used for the delay computation and
the scheduled delay, or none when no reconnect attempt is scheduled at
all. -/

/-- Version A scheduleReconnect (lines 468-496): if lastConnectedAt > 0 and
now - lastConnectedAt > 60000 the attempt count is reset to 0; the delay is
min(reconnectBackoffMs * 2^attempts, maxBackoffMs) with
reconnectBackoffMs = 1000 and maxBackoffMs = 30000.  A reconnect attempt is
always scheduled (the function has no give-up branch). -/
def scheduleReconnectA (lastConnectedAt now attempts : Nat) :
    Option (Nat × Nat) :=
  let attempts' :=
    if lastConnectedAt > 0 ∧ now - lastConnectedAt > 60000 then 0
    else attempts
  some (attempts', min (1000 * 2 ^ attempts') 30000)

/-- Version B scheduleReconnect (lines 973-1000): if
reconnectAttempts >= maxReconnectAttempts (10) the supervisor logs
"Max reconnect attempts reached" and returns without scheduling anything;
otherwise the delay is min(1000 * 2^attempts, 30000).  Version B keeps no
lastConnectedAt and performs no duration-based reset. -/
def scheduleReconnectB (attempts : Nat) : Option Nat :=
  if attempts ≥ 10 then none
  else some (min (1000 * 2 ^ attempts) 30000)

/-! ## SHA-256 and the device identity

generateDeviceIdentity (version A lines 261-279) derives the device id with
crypto.createHash('sha256').update(publicKey).digest('hex') where publicKey
is the PEM *string*; loadOrCreateDeviceIdentity (version B lines 793-807)
derives it from publicKey.export({type:'spki',format:'der'}).slice(-32),
the raw 32-byte key.  SHA-256 is implemented here bit-for-bit so the two
derivations can be compared on a concrete key. -/

/-- Rotate a 32-bit word right by n bits (n < 32). -/
def rotr32 (n x : Nat) : Nat := ((x >>> n) ||| (x <<< (32 - n))) % 2 ^ 32

/-- Bitwise complement within 32 bits. -/
def not32 (x : Nat) : Nat := 0xffffffff ^^^ x

/-- The 64 SHA-256 round constants, rows 0-7 of the FIPS 180-4 table. -/
def sha256K : List Nat :=
  [0x428a2f98, 0x71374491, 0xb5c0fbcf, 0xe9b5dba5,
   0x3956c25b, 0x59f111f1, 0x923f82a4, 0xab1c5ed5] ++
  [0xd807aa98, 0x12835b01, 0x243185be, 0x550c7dc3,
   0x72be5d74, 0x80deb1fe, 0x9bdc06a7, 0xc19bf174] ++
  [0xe49b69c1, 0xefbe4786, 0x0fc19dc6, 0x240ca1cc,
   0x2de92c6f, 0x4a7484aa, 0x5cb0a9dc, 0x76f988da] ++
  [0x983e5152, 0xa831c66d, 0xb00327c8, 0xbf597fc7,
   0xc6e00bf3, 0xd5a79147, 0x06ca6351, 0x14292967] ++
  [0x27b70a85, 0x2e1b2138, 0x4d2c6dfc, 0x53380d13,
   0x650a7354, 0x766a0abb, 0x81c2c92e, 0x92722c85] ++
  [0xa2bfe8a1, 0xa81a664b, 0xc24b8b70, 0xc76c51a3,
   0xd192e819, 0xd6990624, 0xf40e3585, 0x106aa070] ++
  [0x19a4c116, 0x1e376c08, 0x2748774c, 0x34b0bcb5,
   0x391c0cb3, 0x4ed8aa4a, 0x5b9cca4f, 0x682e6ff3] ++
  [0x748f82ee, 0x78a5636f, 0x84c87814, 0x8cc70208,
   0x90befffa, 0xa4506ceb, 0xbef9a3f7, 0xc67178f2]

/-- Split a list into consecutive chunks of 64 elements.  Structural
recursion on a fuel argument (initialised to the list length, which always
suffices since every step consumes at least one element) so that the
definition reduces inside the kernel. -/
def chunks64Fuel {α : Type} : Nat → List α → List (List α)
  | _, [] => []
  | 0, _ => []
  | n + 1, l => l.take 64 :: chunks64Fuel n (l.drop 64)

def chunks64 {α : Type} (l : List α) : List (List α) := chunks64Fuel l.length l

/-- Big-endian interpretation of a byte list as one number. -/
def bytesToWord (bs : List Nat) : Nat := bs.foldl (fun acc b => acc * 256 + b) 0

/-- Split a 64-byte block into sixteen big-endian 32-bit words (fuel as in
chunks64Fuel). -/
def blockWordsFuel : Nat → List Nat → List Nat
  | _, [] => []
  | 0, _ => []
  | n + 1, l => bytesToWord (l.take 4) :: blockWordsFuel n (l.drop 4)

def blockWords (l : List Nat) : List Nat := blockWordsFuel l.length l

/-- SHA-256 padding: append 0x80, zeros to 56 mod 64, and the 64-bit
big-endian bit length. -/
def sha256Pad (msg : List Nat) : List Nat :=
  let bitLen := 8 * msg.length
  let zeros := (120 - (msg.length + 1) % 64) % 64
  msg ++ [0x80] ++ List.replicate zeros 0 ++
    (List.range 8).map (fun i => (bitLen >>> (8 * (7 - i))) % 256)

def smallSigma0 (x : Nat) : Nat := rotr32 7 x ^^^ rotr32 18 x ^^^ (x >>> 3)
def smallSigma1 (x : Nat) : Nat := rotr32 17 x ^^^ rotr32 19 x ^^^ (x >>> 10)
def bigSigma0 (x : Nat) : Nat := rotr32 2 x ^^^ rotr32 13 x ^^^ rotr32 22 x
def bigSigma1 (x : Nat) : Nat := rotr32 6 x ^^^ rotr32 11 x ^^^ rotr32 25 x

/-- Extend the 16-word message schedule by k further words. -/
def extendSchedule : Nat → List Nat → List Nat
  | 0, w => w
  | k + 1, w =>
    let i := w.length
    let nw := (smallSigma1 (w.getD (i - 2) 0) + w.getD (i - 7) 0 +
               smallSigma0 (w.getD (i - 15) 0) + w.getD (i - 16) 0) % 2 ^ 32
    extendSchedule k (w ++ [nw])

/-- The eight SHA-256 working registers. -/
structure Sha8 where
  a : Nat
  b : Nat
  c : Nat
  d : Nat
  e : Nat
  f : Nat
  g : Nat
  h : Nat

def shaRound (st : Sha8) (kw : Nat × Nat) : Sha8 :=
  let ch := (st.e &&& st.f) ^^^ (not32 st.e &&& st.g)
  let maj := (st.a &&& st.b) ^^^ (st.a &&& st.c) ^^^ (st.b &&& st.c)
  let t1 := (st.h + bigSigma1 st.e + ch + kw.1 + kw.2) % 2 ^ 32
  let t2 := (bigSigma0 st.a + maj) % 2 ^ 32
  { a := (t1 + t2) % 2 ^ 32, b := st.a, c := st.b, d := st.c,
    e := (st.d + t1) % 2 ^ 32, f := st.e, g := st.f, h := st.g }

def compressBlock (st : Sha8) (block : List Nat) : Sha8 :=
  let w := extendSchedule 48 (blockWords block)
  let r := (sha256K.zip w).foldl shaRound st
  { a := (st.a + r.a) % 2 ^ 32, b := (st.b + r.b) % 2 ^ 32,
    c := (st.c + r.c) % 2 ^ 32, d := (st.d + r.d) % 2 ^ 32,
    e := (st.e + r.e) % 2 ^ 32, f := (st.f + r.f) % 2 ^ 32,
    g := (st.g + r.g) % 2 ^ 32, h := (st.h + r.h) % 2 ^ 32 }

def sha256Init : Sha8 :=
  ⟨0x6a09e667, 0xbb67ae85, 0x3c6ef372, 0xa54ff53a,
   0x510e527f, 0x9b05688c, 0x1f83d9ab, 0x5be0cd19⟩

/-- SHA-256 digest of a byte list, as eight 32-bit words. -/
def sha256Words (msg : List Nat) : List Nat :=
  let fin := (chunks64 (sha256Pad msg)).foldl compressBlock sha256Init
  [fin.a, fin.b, fin.c, fin.d, fin.e, fin.f, fin.g, fin.h]

def hexDigitChars : List Char := "0123456789abcdef".data

/-- Lowercase hex rendering of one 32-bit word (eight digits). -/
def wordToHex (w : Nat) : List Char :=
  (List.range 8).map (fun i => hexDigitChars.getD ((w >>> (4 * (7 - i))) % 16) '0')

/-- Node's createHash('sha256').update(msg).digest('hex'): lowercase hex of
the SHA-256 digest. -/
def sha256Hex (msg : List Nat) : String :=
  String.mk (List.flatten ((sha256Words msg).map wordToHex))

/-- Validation against the FIPS 180 known answer for "abc". -/
theorem sha256Hex_abc :
    sha256Hex [0x61, 0x62, 0x63] =
      "ba7816bf8f01cfea414140de5dae2223b00361a396177a9cb410ff61f20015ad" := by
  decide

/-- Standard base64 alphabet (crypto PEM export uses +, / and = padding). -/
def base64Chars : List Char :=
  "ABCDEFGHIJKLMNOPQRSTUVWXYZabcdefghijklmnopqrstuvwxyz0123456789+/".data

/-- Base64-encode a byte list. -/
def base64EncodeChars : List Nat → List Char
  | [] => []
  | [a] =>
    [base64Chars.getD (a / 4) 'A', base64Chars.getD (a % 4 * 16) 'A', '=', '=']
  | [a, b] =>
    [base64Chars.getD (a / 4) 'A', base64Chars.getD (a % 4 * 16 + b / 16) 'A',
     base64Chars.getD (b % 16 * 4) 'A', '=']
  | a :: b :: c :: rest =>
    base64Chars.getD (a / 4) 'A' :: base64Chars.getD (a % 4 * 16 + b / 16) 'A' ::
    base64Chars.getD (b % 16 * 4 + c / 64) 'A' :: base64Chars.getD (c % 64) 'A' ::
    base64EncodeChars rest

/-- Node's PEM rendering of an SPKI DER public key, as produced by
generateKeyPairSync's publicKeyEncoding {type:'spki', format:'pem'}: the
BEGIN line, base64 of the DER wrapped at 64 characters, the END line, and a
trailing newline. -/
def pemOfDer (der : List Nat) : String :=
  "-----BEGIN PUBLIC KEY-----\n" ++
  String.intercalate "\n" ((chunks64 (base64EncodeChars der)).map String.mk) ++
  "\n-----END PUBLIC KEY-----\n"

/-- UTF-8 bytes of an ASCII string (PEM text is pure ASCII, so the byte at
each position is the code point); Buffer/hash.update treat a string this
way. -/
def asciiBytes (s : String) : List Nat := s.data.map Char.toNat

/-- The fixed 12-byte SPKI DER header preceding the raw 32-byte key in an
Ed25519 SubjectPublicKeyInfo (44 bytes total). -/
def spkiHeader : List Nat :=
  [0x30, 0x2a, 0x30, 0x05, 0x06, 0x03, 0x2b, 0x65, 0x70, 0x03, 0x21, 0x00]

/-- Version A generateDeviceIdentity (lines 261-279): the device id is
createHash('sha256').update(publicKey).digest('hex') where publicKey is the
PEM-encoded string, so the PEM text itself is hashed. -/
def deviceIdA (publicKeyPem : String) : String :=
  sha256Hex (asciiBytes publicKeyPem)

/-- Version B (lines 793-807): rawKey = export({type:'spki',
format:'der'}).slice(-32), the last 32 bytes of the DER encoding. -/
def extractRawKeyDer (spkiDer : List Nat) : List Nat :=
  spkiDer.drop (spkiDer.length - 32)

/-- Version B loadOrCreateDeviceIdentity (lines 793-807): the device id is
createHash('sha256').update(rawKey).digest('hex') on the raw 32 key
bytes. -/
def deviceIdB (spkiDer : List Nat) : String :=
  sha256Hex (extractRawKeyDer spkiDer)

/-- Modelled from the spec: "The device id is the hex-encoded cryptographic
hash of the raw public key bytes" - lowercase hex SHA-256 of the raw
32-byte public key. -/
def specDeviceId (rawKey : List Nat) : String := sha256Hex rawKey

/-- A concrete 32-byte public-key value used as the explicit input for the
device-id comparison. -/
def rawKey0 : List Nat := (List.range 32).map (· + 1)

def der0 : List Nat := spkiHeader ++ rawKey0

def pem0 : String := pemOfDer der0

/-! ## Request correlator

GatewayClient.request (version A lines 657-681, version B lines
1148-1166), the response dispatch in GatewayClient.handleMessage
(version A lines 683-706, version B lines 1171-1194) and the ws close
handler (version A lines 431-446, version B lines 937-952).  The
this.pending Map is modelled by its key set plus a log of the terminal
outcomes delivered to callers (promise resolutions/rejections). -/

/-- A terminal outcome delivered for one correlation id. -/
inductive ReqOutcome
  | resolved (payload : String)
  | rejectedResp (code msg : String)
  | timedOut
  | connClosed
deriving DecidableEq

structure CorrState where
  pending : List String
  outcomes : List (String × ReqOutcome)
deriving DecidableEq

/-- The happenings the correlator reacts to: request registers an id
(uuidv4, so fresh), a response envelope arrives, a request's deadline timer
fires, or the socket closes. -/
inductive CorrEv
  | register (id : String)
  | response (id : String) (ok : Bool) (payload code msg : String)
  | timeoutFire (id : String)
  | socketClose
deriving DecidableEq

/-- One correlator transition.

register: this.pending.set(id, ...) - on the key set, an insert (ids are
fresh uuids; inserting an existing key leaves the key set unchanged).

response (handleMessage): if the id is in pending, delete it, clearTimeout,
and resolve with the payload when ok, else reject with
`${code}: ${message || 'Request failed'}`; a response for an unknown id
falls through with no effect.

timeoutFire: the deadline callback does this.pending.delete(id) and rejects
with a timeout error.  The timer is armed exactly while the id is pending
(every removal from the map is paired with clearTimeout), so a fire with
the id absent is the fire of a cleared timer: a no-op.

socketClose: the close handler rejects every pending request with
'Gateway connection closed' (clearing its timer) and clears the map. -/
def corrStep (s : CorrState) (ev : CorrEv) : CorrState :=
  match ev with
  | .register id =>
      if id ∈ s.pending then s else { s with pending := id :: s.pending }
  | .response id ok payload code msg =>
      if id ∈ s.pending then
        { pending := s.pending.filter (fun x => x ≠ id),
          outcomes := s.outcomes ++
            [(id, if ok then ReqOutcome.resolved payload
                  else ReqOutcome.rejectedResp code (jsOr msg "Request failed"))] }
      else s
  | .timeoutFire id =>
      if id ∈ s.pending then
        { pending := s.pending.filter (fun x => x ≠ id),
          outcomes := s.outcomes ++ [(id, ReqOutcome.timedOut)] }
      else s
  | .socketClose =>
      { pending := [],
        outcomes := s.outcomes ++
          s.pending.map (fun i => (i, ReqOutcome.connClosed)) }

def corrInit : CorrState := { pending := [], outcomes := [] }

def corrRunFrom (s : CorrState) (tr : List CorrEv) : CorrState :=
  tr.foldl corrStep s

def corrRun (tr : List CorrEv) : CorrState := corrRunFrom corrInit tr

/-- Number of terminal outcomes the trace delivered for a given id. -/
def countOut (id : String) (s : CorrState) : Nat :=
  (s.outcomes.filter (fun p => p.1 = id)).length

/-- 1 when the id is currently pending, else 0. -/
def membN (id : String) (s : CorrState) : Nat :=
  if id ∈ s.pending then 1 else 0

/-- Number of register events for a given id in a trace. -/
def regs (id : String) (tr : List CorrEv) : Nat :=
  (tr.filter (fun e => e = CorrEv.register id)).length

lemma membN_le_one (id : String) (s : CorrState) : membN id s ≤ 1 := by
  unfold membN; split <;> omega

lemma corrStep_nodup (s : CorrState) (ev : CorrEv)
    (h : s.pending.Nodup) : (corrStep s ev).pending.Nodup := by
  cases ev with
  | register i =>
      by_cases hi : i ∈ s.pending <;>
        simp [corrStep, hi, List.nodup_cons, h]
  | response i ok p c m =>
      by_cases hi : i ∈ s.pending <;> simp [corrStep, hi, h, List.Nodup.filter]
  | timeoutFire i =>
      by_cases hi : i ∈ s.pending <;> simp [corrStep, hi, h, List.Nodup.filter]
  | socketClose => simp [corrStep]

lemma mem_filter_ne_self (id : String) (l : List String) :
    id ∉ l.filter (fun x => x ≠ id) := by
  simp [List.mem_filter]

lemma memb_filter_le (id : String) (l : List String) (p : String → Bool) :
    (if id ∈ l.filter p then 1 else 0) ≤ (if id ∈ l then 1 else 0 : Nat) := by
  by_cases h : id ∈ l.filter p
  · simp [h, List.mem_of_mem_filter h]
  · simp [h]

lemma close_pairs_count (id : String) (l : List String) (h : l.Nodup) :
    ((l.map (fun i => (i, ReqOutcome.connClosed))).filter
        (fun p => p.1 = id)).length = if id ∈ l then 1 else 0 := by
  induction l with
  | nil => simp
  | cons a t ih =>
      rw [List.nodup_cons] at h
      by_cases ha : a = id
      · subst ha
        simp [List.filter_cons, h.1, ih h.2]
      · simp only [List.map_cons, List.filter_cons]
        have : (decide ((a, ReqOutcome.connClosed).1 = id)) = false := by
          simp [ha]
        simp [this, ih h.2, List.mem_cons, Ne.symm ha, ha]

lemma corrStep_sum_le (id : String) (s : CorrState) (ev : CorrEv)
    (h : s.pending.Nodup) :
    countOut id (corrStep s ev) + membN id (corrStep s ev) ≤
      countOut id s + membN id s + regs id [ev] := by
  cases ev with
  | register i =>
      by_cases hi : i ∈ s.pending
      · simp [corrStep, hi]
      · by_cases hii : i = id
        · subst hii
          simp [corrStep, hi, countOut, membN, regs, List.filter_cons]
        · simp [corrStep, hi, countOut, membN, regs, List.mem_cons, hii,
                Ne.symm hii, List.filter_cons]
  | response i ok p c m =>
      by_cases hi : i ∈ s.pending
      · by_cases hii : i = id
        · subst hii
          simp [corrStep, hi, countOut, membN, regs, List.filter_append,
                mem_filter_ne_self, List.filter_cons]
        · by_cases hm : id ∈ s.pending <;>
            simp [corrStep, hi, countOut, membN, regs, List.filter_append,
                  List.filter_cons, hii, hm, Ne.symm hii]
      · simp [corrStep, hi, regs]
  | timeoutFire i =>
      by_cases hi : i ∈ s.pending
      · by_cases hii : i = id
        · subst hii
          simp [corrStep, hi, countOut, membN, regs, List.filter_append,
                mem_filter_ne_self, List.filter_cons]
        · by_cases hm : id ∈ s.pending <;>
            simp [corrStep, hi, countOut, membN, regs, List.filter_append,
                  List.filter_cons, hii, hm, Ne.symm hii]
      · simp [corrStep, hi, regs]
  | socketClose =>
      simp [corrStep, countOut, membN, regs, List.filter_append,
            close_pairs_count id s.pending h]

lemma corrStep_sum_ge (id : String) (s : CorrState) (ev : CorrEv) :
    countOut id s + membN id s ≤
      countOut id (corrStep s ev) + membN id (corrStep s ev) := by
  cases ev with
  | register i =>
      by_cases hi : i ∈ s.pending
      · simp [corrStep, hi]
      · by_cases hii : i = id
        · subst hii
          simp [corrStep, hi, countOut, membN]
        · simp [corrStep, hi, countOut, membN, List.mem_cons, Ne.symm hii]
  | response i ok p c m =>
      by_cases hi : i ∈ s.pending
      · by_cases hii : i = id
        · subst hii
          simp [corrStep, hi, countOut, membN, List.filter_append,
                mem_filter_ne_self, List.filter_cons]
        · by_cases hm : id ∈ s.pending <;>
            simp [corrStep, hi, countOut, membN, List.filter_append,
                  List.filter_cons, hii, hm, Ne.symm hii]
      · simp [corrStep, hi]
  | timeoutFire i =>
      by_cases hi : i ∈ s.pending
      · by_cases hii : i = id
        · subst hii
          simp [corrStep, hi, countOut, membN, List.filter_append,
                mem_filter_ne_self, List.filter_cons]
        · by_cases hm : id ∈ s.pending <;>
            simp [corrStep, hi, countOut, membN, List.filter_append,
                  List.filter_cons, hii, hm, Ne.symm hii]
      · simp [corrStep, hi]
  | socketClose =>
      by_cases hm : id ∈ s.pending
      · have h2 : 0 < ((s.pending.map (fun i => (i, ReqOutcome.connClosed))).filter
            (fun p => p.1 = id)).length := by
          have hmem : (id, ReqOutcome.connClosed) ∈
              (s.pending.map (fun i => (i, ReqOutcome.connClosed))).filter
                (fun p => p.1 = id) := by
            simp [List.mem_filter, List.mem_map]
            exact hm
          exact List.length_pos.mpr (List.ne_nil_of_mem hmem)
        simp only [corrStep, countOut, membN, List.filter_append,
          List.length_append, hm, if_true, List.not_mem_nil, if_false]
        omega
      · simp only [corrStep, countOut, membN, List.filter_append,
          List.length_append, hm, if_false, List.not_mem_nil]
        omega

lemma corrStep_memb_le (id : String) (s : CorrState) (ev : CorrEv)
    (h : regs id [ev] = 0) : membN id (corrStep s ev) ≤ membN id s := by
  cases ev with
  | register i =>
      have hii : i ≠ id := by
        intro he; subst he; simp [regs, List.filter_cons] at h
      by_cases hi : i ∈ s.pending
      · simp [corrStep, hi]
      · simp [corrStep, hi, membN, List.mem_cons, Ne.symm hii]
  | response i ok p c m =>
      by_cases hi : i ∈ s.pending
      · simp only [corrStep, hi, if_true, membN]
        exact memb_filter_le id s.pending _
      · simp [corrStep, hi]
  | timeoutFire i =>
      by_cases hi : i ∈ s.pending
      · simp only [corrStep, hi, if_true, membN]
        exact memb_filter_le id s.pending _
      · simp [corrStep, hi]
  | socketClose => simp [corrStep, membN]

lemma membN_timeoutFire_self (id : String) (s : CorrState) :
    membN id (corrStep s (CorrEv.timeoutFire id)) = 0 := by
  by_cases hi : id ∈ s.pending
  · simp [corrStep, hi, membN, mem_filter_ne_self]
  · simp [corrStep, hi, membN]

lemma one_le_sum_register (id : String) (s : CorrState) :
    1 ≤ countOut id (corrStep s (CorrEv.register id)) +
        membN id (corrStep s (CorrEv.register id)) := by
  by_cases hi : id ∈ s.pending
  · simp [corrStep, hi, membN]
  · simp [corrStep, hi, membN]

lemma regs_cons (id : String) (ev : CorrEv) (tr : List CorrEv) :
    regs id (ev :: tr) = regs id [ev] + regs id tr := by
  by_cases h : ev = CorrEv.register id <;>
    simp [regs, List.filter_cons, h] <;> omega

lemma corrRunFrom_nodup (s : CorrState) (tr : List CorrEv)
    (h : s.pending.Nodup) : (corrRunFrom s tr).pending.Nodup := by
  induction tr generalizing s with
  | nil => exact h
  | cons ev tr ih => exact ih (corrStep s ev) (corrStep_nodup s ev h)

lemma corrRunFrom_sum_le (id : String) (s : CorrState) (tr : List CorrEv)
    (h : s.pending.Nodup) :
    countOut id (corrRunFrom s tr) + membN id (corrRunFrom s tr) ≤
      countOut id s + membN id s + regs id tr := by
  induction tr generalizing s with
  | nil => simp [corrRunFrom, regs]
  | cons ev tr ih =>
      have h1 := corrStep_sum_le id s ev h
      have h2 := ih (corrStep s ev) (corrStep_nodup s ev h)
      rw [regs_cons]
      have : corrRunFrom s (ev :: tr) = corrRunFrom (corrStep s ev) tr := rfl
      rw [this]
      omega

lemma corrRunFrom_sum_ge (id : String) (s : CorrState) (tr : List CorrEv) :
    countOut id s + membN id s ≤
      countOut id (corrRunFrom s tr) + membN id (corrRunFrom s tr) := by
  induction tr generalizing s with
  | nil => simp [corrRunFrom]
  | cons ev tr ih =>
      have h1 := corrStep_sum_ge id s ev
      have h2 := ih (corrStep s ev)
      have : corrRunFrom s (ev :: tr) = corrRunFrom (corrStep s ev) tr := rfl
      rw [this]
      omega

lemma corrRunFrom_memb_zero (id : String) (s : CorrState) (tr : List CorrEv)
    (hr : regs id tr = 0) (hm : membN id s = 0) :
    membN id (corrRunFrom s tr) = 0 := by
  induction tr generalizing s with
  | nil => exact hm
  | cons ev tr ih =>
      rw [regs_cons] at hr
      have hev : regs id [ev] = 0 := by omega
      have htr : regs id tr = 0 := by omega
      have h1 := corrStep_memb_le id s ev hev
      have : corrRunFrom s (ev :: tr) = corrRunFrom (corrStep s ev) tr := rfl
      rw [this]
      exact ih (corrStep s ev) htr (by omega)

lemma corrRunFrom_sum_one (id : String) (s : CorrState) (tr : List CorrEv)
    (hr : 1 ≤ regs id tr) :
    1 ≤ countOut id (corrRunFrom s tr) + membN id (corrRunFrom s tr) := by
  induction tr generalizing s with
  | nil => simp [regs] at hr
  | cons ev tr ih =>
      have hstep : corrRunFrom s (ev :: tr) = corrRunFrom (corrStep s ev) tr := rfl
      by_cases hev : ev = CorrEv.register id
      · subst hev
        have h1 := one_le_sum_register id s
        have h2 := corrRunFrom_sum_ge id (corrStep s (CorrEv.register id)) tr
        rw [hstep]
        omega
      · rw [regs_cons] at hr
        have : regs id [ev] = 0 := by simp [regs, List.filter_cons, hev]
        rw [hstep]
        exact ih (corrStep s ev) (by omega)

/-! ## Streaming chat call (sendMessage)

GatewayClient.sendMessage, version A lines 571-655 and version B lines
1062-1143.  The two versions are identical except for the event filter:
version A drops an event iff payload?.runId !== runId (lines 613-619, with
the comment "Match on runId only - sessionKey may differ between connect
and chat"); version B drops it iff payload?.runId !== runId ||
payload?.sessionKey !== this.sessionKey (lines 1102-1107).  chatStep below
is the common handler with the extra sessionKey requirement as a Boolean
parameter; chatStepA / chatStepB are the two versions. -/

/-- The fields of a parsed wire message that sendMessage's event handler
reads.  Absent JSON fields are none (JS undefined). -/
structure WireMsg where
  type : String
  id : Option String
  ok : Option Bool
  event : Option String
  errorMessage : Option String
  payloadRunId : Option String
  payloadSessionKey : Option String
  payloadStream : Option String
  payloadDataText : Option String
  payloadState : Option String
deriving DecidableEq

instance : DecidableEq (Except String String)
  | .ok a, .ok b =>
      if h : a = b then .isTrue (h ▸ rfl)
      else .isFalse (fun he => h (Except.ok.inj he))
  | .ok _, .error _ => .isFalse (fun he => Except.noConfusion he)
  | .error _, .ok _ => .isFalse (fun he => Except.noConfusion he)
  | .error a, .error b =>
      if h : a = b then .isTrue (h ▸ rfl)
      else .isFalse (fun he => h (Except.error.inj he))

/-- The closure state of one sendMessage call: the local runId and fullText
variables, the completed flag, whether the event handler is still attached
to the socket (removeListener sets this false), and the promise settlement:
none while pending, and the first resolve/reject wins (ok = resolved text,
error = rejection message). -/
structure ChatState where
  runId : Option String
  fullText : String
  completed : Bool
  listening : Bool
  outcome : Option (Except String String)
deriving DecidableEq

/-- JS promise semantics: settling an already-settled promise is a no-op. -/
def settleOutcome (s : ChatState) (o : Except String String) : ChatState :=
  match s.outcome with
  | some _ => s
  | none => { s with outcome := some o }

/-- JS truthiness of a possibly-absent string: undefined and "" are falsy. -/
def truthyStr : Option String → Bool
  | none => false
  | some s => !(s == "")

/-- One invocation of the sendMessage event handler on a parsed message.
requireSessionKey false gives version A's filter, true gives version B's
(with the client's this.sessionKey).  When the listener has been removed
(listening = false) the handler is no longer invoked, so the state is
unchanged. -/
def chatStep (requireSessionKey : Bool) (sessionKey reqId : String)
    (s : ChatState) (m : WireMsg) : ChatState :=
  if s.listening = false then s
  else if m.type = "res" ∧ m.id = some reqId then
    if m.ok = some true then { s with runId := m.payloadRunId }
    else
      { settleOutcome s
          (Except.error (jsOr (m.errorMessage.getD "") "Chat failed")) with
        completed := true, listening := false }
  else if m.type = "event" ∧ truthyStr s.runId = true then
    if m.payloadRunId ≠ s.runId ∨
       (requireSessionKey = true ∧ m.payloadSessionKey ≠ some sessionKey) then s
    else
      let s1 :=
        if m.event = some "agent" ∧ m.payloadStream = some "assistant" ∧
           truthyStr m.payloadDataText = true
        then { s with fullText := m.payloadDataText.getD "" } else s
      if m.event = some "chat" ∧ m.payloadState = some "final" then
        { settleOutcome s1 (Except.ok (jsOr s1.fullText "No response")) with
          completed := true, listening := false }
      else s1
  else s

/-- Version A's event handler (lines 594-638). -/
def chatStepA (reqId : String) (s : ChatState) (m : WireMsg) : ChatState :=
  chatStep false "" reqId s m

/-- Version B's event handler (lines 1083-1126). -/
def chatStepB (sessionKey reqId : String) (s : ChatState) (m : WireMsg) :
    ChatState :=
  chatStep true sessionKey reqId s m

/-- The overall-timeout callback (version A lines 586-591, version B lines
1076-1081): if not completed, set completed and reject with
'Chat response timeout'.  It does not remove the message listener. -/
def chatTimeout (s : ChatState) : ChatState :=
  if s.completed = false then
    { settleOutcome s (Except.error "Chat response timeout") with
      completed := true }
  else s

/-- A happening observed by one sendMessage call: a wire message delivered
to its listener, or its overall-timeout timer firing. -/
inductive ChatEv
  | wire (m : WireMsg)
  | timerFire
deriving DecidableEq

/-- Run one sendMessage call over a sequence of happenings. -/
def chatRun (requireSessionKey : Bool) (sessionKey reqId : String)
    (s : ChatState) (evs : List ChatEv) : ChatState :=
  evs.foldl
    (fun st ev =>
      match ev with
      | ChatEv.wire m => chatStep requireSessionKey sessionKey reqId st m
      | ChatEv.timerFire => chatTimeout st) s

/-- Run one sendMessage call over delivered messages only. -/
def chatFold (requireSessionKey : Bool) (sessionKey reqId : String)
    (s : ChatState) (ms : List WireMsg) : ChatState :=
  ms.foldl (chatStep requireSessionKey sessionKey reqId) s

/-- The acceptance test of the event filter: version A (rsk = false)
accepts iff the payload runId equals the tracked runId; version B
(rsk = true) additionally requires the payload sessionKey to equal the
client's sessionKey. -/
def acceptedEv (rsk : Bool) (sk rid : String) (m : WireMsg) : Bool :=
  m.payloadRunId == some rid && (!rsk || m.payloadSessionKey == some sk)

/-- An accepted incremental content event: event 'agent', stream
'assistant', with truthy text. -/
def capturesEv (rsk : Bool) (sk rid : String) (m : WireMsg) : Bool :=
  acceptedEv rsk sk rid m && m.event == some "agent" &&
    m.payloadStream == some "assistant" && truthyStr m.payloadDataText

/-- An accepted finality event: event 'chat' with payload state 'final'. -/
def isFinalEv (rsk : Bool) (sk rid : String) (m : WireMsg) : Bool :=
  acceptedEv rsk sk rid m && m.event == some "chat" &&
    m.payloadState == some "final"

/-- The accumulated text after a sequence of events: each accepted content
event overwrites (the server sends cumulative text), all else leaves it. -/
def chatTextFold (rsk : Bool) (sk rid : String) (t0 : String)
    (ms : List WireMsg) : String :=
  ms.foldl
    (fun t m => if capturesEv rsk sk rid m then m.payloadDataText.getD "" else t)
    t0

lemma settleOutcome_some (s : ChatState) (o o' : Except String String)
    (h : s.outcome = some o) : (settleOutcome s o').outcome = some o := by
  unfold settleOutcome
  rw [h]
  exact h

lemma chatStep_outcome_mono (rsk : Bool) (sk r : String) (s : ChatState)
    (m : WireMsg) (o : Except String String) (h : s.outcome = some o) :
    (chatStep rsk sk r s m).outcome = some o := by
  simp only [chatStep]
  split_ifs <;> simp_all [settleOutcome]

lemma chatTimeout_outcome_mono (s : ChatState) (o : Except String String)
    (h : s.outcome = some o) : (chatTimeout s).outcome = some o := by
  unfold chatTimeout
  split
  · exact settleOutcome_some s o _ h
  · exact h

lemma chatRun_outcome_mono (rsk : Bool) (sk r : String) (s : ChatState)
    (evs : List ChatEv) (o : Except String String) (h : s.outcome = some o) :
    (chatRun rsk sk r s evs).outcome = some o := by
  induction evs generalizing s with
  | nil => exact h
  | cons ev evs ih =>
      cases ev with
      | wire m => exact ih _ (chatStep_outcome_mono rsk sk r s m o h)
      | timerFire => exact ih _ (chatTimeout_outcome_mono s o h)

lemma acceptedEv_iff (rsk : Bool) (sk rid : String) (m : WireMsg) :
    acceptedEv rsk sk rid m = true ↔
      (m.payloadRunId = some rid ∧
       (rsk = true → m.payloadSessionKey = some sk)) := by
  cases rsk <;> simp [acceptedEv]

/-- The body of the event branch once the filter has accepted the event:
capture assistant text, then on a finality marker settle the promise with
the accumulated text or the 'No response' sentinel. -/
def processChatEvent (s : ChatState) (m : WireMsg) : ChatState :=
  let s1 :=
    if m.event = some "agent" ∧ m.payloadStream = some "assistant" ∧
       truthyStr m.payloadDataText = true
    then { s with fullText := m.payloadDataText.getD "" } else s
  if m.event = some "chat" ∧ m.payloadState = some "final" then
    { settleOutcome s1 (Except.ok (jsOr s1.fullText "No response")) with
      completed := true, listening := false }
  else s1

lemma chatStep_event_accepted (rsk : Bool) (sk r rid : String)
    (s : ChatState) (m : WireMsg) (hl : s.listening = true)
    (hr : s.runId = some rid) (hne : rid ≠ "") (ht : m.type = "event")
    (hacc : acceptedEv rsk sk rid m = true) :
    chatStep rsk sk r s m = processChatEvent s m := by
  obtain ⟨hpr, hps⟩ := (acceptedEv_iff rsk sk rid m).mp hacc
  have htr : truthyStr s.runId = true := by
    simp [hr, truthyStr, hne]
  have hfilter :
      ¬(m.payloadRunId ≠ s.runId ∨
        (rsk = true ∧ m.payloadSessionKey ≠ some sk)) := by
    rw [hr]
    rintro (hc | ⟨hrsk, hcs⟩)
    · exact hc hpr
    · exact hcs (hps hrsk)
  simp only [chatStep, hl, ht, htr, processChatEvent]
  rw [if_neg (by simp), if_neg (by simp [ht]), if_pos (by simp), if_neg hfilter]

lemma chatStep_event_rejected (rsk : Bool) (sk r rid : String)
    (s : ChatState) (m : WireMsg) (hr : s.runId = some rid)
    (ht : m.type = "event") (hacc : acceptedEv rsk sk rid m = false) :
    chatStep rsk sk r s m = s := by
  have hfail : ¬(acceptedEv rsk sk rid m = true) := by simp [hacc]
  rw [acceptedEv_iff] at hfail
  by_cases hl : s.listening = true
  · by_cases htr : truthyStr s.runId = true
    · have hfilter :
          m.payloadRunId ≠ s.runId ∨
            (rsk = true ∧ m.payloadSessionKey ≠ some sk) := by
        rw [hr]
        by_cases hpr : m.payloadRunId = some rid
        · right
          cases rsk with
          | false => exact absurd ⟨hpr, by simp⟩ hfail
          | true =>
              refine ⟨rfl, fun hcs => ?_⟩
              exact hfail ⟨hpr, fun _ => hcs⟩
        · exact Or.inl hpr
      simp only [chatStep, hl, ht, htr]
      rw [if_neg (by simp), if_neg (by simp [ht]), if_pos (by simp),
          if_pos hfilter]
    · simp only [chatStep, hl]
      rw [if_neg (by simp), if_neg (by simp [ht]), if_neg (by simp [htr])]
  · have : s.listening = false := by
      cases hll : s.listening
      · rfl
      · exact absurd hll hl
    simp [chatStep, this]

lemma capturesEv_iff (rsk : Bool) (sk rid : String) (m : WireMsg) :
    capturesEv rsk sk rid m = true ↔
      (acceptedEv rsk sk rid m = true ∧ m.event = some "agent" ∧
       m.payloadStream = some "assistant" ∧
       truthyStr m.payloadDataText = true) := by
  simp [capturesEv, Bool.and_eq_true, and_assoc]

lemma isFinalEv_iff (rsk : Bool) (sk rid : String) (m : WireMsg) :
    isFinalEv rsk sk rid m = true ↔
      (acceptedEv rsk sk rid m = true ∧ m.event = some "chat" ∧
       m.payloadState = some "final") := by
  simp [isFinalEv, Bool.and_eq_true, and_assoc]

lemma chatStep_event_nonfinal (rsk : Bool) (sk r rid : String)
    (s : ChatState) (m : WireMsg) (hl : s.listening = true)
    (hr : s.runId = some rid) (hne : rid ≠ "") (ht : m.type = "event")
    (hnf : isFinalEv rsk sk rid m = false) :
    chatStep rsk sk r s m =
      { s with fullText :=
          if capturesEv rsk sk rid m = true then m.payloadDataText.getD ""
          else s.fullText } := by
  by_cases hacc : acceptedEv rsk sk rid m = true
  · rw [chatStep_event_accepted rsk sk r rid s m hl hr hne ht hacc]
    have hnotfin : ¬(m.event = some "chat" ∧ m.payloadState = some "final") := by
      intro hc
      have : isFinalEv rsk sk rid m = true :=
        (isFinalEv_iff rsk sk rid m).mpr ⟨hacc, hc.1, hc.2⟩
      rw [this] at hnf
      simp at hnf
    simp only [processChatEvent]
    rw [if_neg hnotfin]
    by_cases hcap : m.event = some "agent" ∧ m.payloadStream = some "assistant" ∧
        truthyStr m.payloadDataText = true
    · have hct : capturesEv rsk sk rid m = true :=
        (capturesEv_iff rsk sk rid m).mpr ⟨hacc, hcap.1, hcap.2.1, hcap.2.2⟩
      rw [if_pos hcap, if_pos hct]
    · have hcf : ¬(capturesEv rsk sk rid m = true) := by
        intro hc
        exact hcap ((capturesEv_iff rsk sk rid m).mp hc).2
      rw [if_neg hcap, if_neg hcf]
  · have haccf : acceptedEv rsk sk rid m = false := by
      cases hb : acceptedEv rsk sk rid m
      · rfl
      · exact absurd hb hacc
    rw [chatStep_event_rejected rsk sk r rid s m hr ht haccf]
    have hcf : ¬(capturesEv rsk sk rid m = true) := by
      intro hc
      exact hacc ((capturesEv_iff rsk sk rid m).mp hc).1
    rw [if_neg hcf]

lemma chatStep_event_final (rsk : Bool) (sk r rid : String)
    (s : ChatState) (m : WireMsg) (hl : s.listening = true)
    (hr : s.runId = some rid) (hne : rid ≠ "") (ht : m.type = "event")
    (hf : isFinalEv rsk sk rid m = true) (ho : s.outcome = none) :
    (chatStep rsk sk r s m).outcome =
      some (Except.ok (jsOr s.fullText "No response")) := by
  obtain ⟨hacc, hev, hst⟩ := (isFinalEv_iff rsk sk rid m).mp hf
  rw [chatStep_event_accepted rsk sk r rid s m hl hr hne ht hacc]
  have hnotagent : ¬(m.event = some "agent" ∧ m.payloadStream = some "assistant" ∧
      truthyStr m.payloadDataText = true) := by
    rintro ⟨ha, -, -⟩
    rw [hev] at ha
    simp at ha
  simp only [processChatEvent]
  rw [if_neg hnotagent, if_pos ⟨hev, hst⟩]
  simp [settleOutcome, ho]

/-- Feeding a sendMessage call a sequence of non-final event messages for a
tracked run neither settles it nor stops it listening; it only updates the
accumulated text, each accepted content event overwriting it. -/
lemma chatFold_nonfinal (rsk : Bool) (sk r rid : String) (s : ChatState)
    (ms : List WireMsg) (hl : s.listening = true) (hr : s.runId = some rid)
    (hne : rid ≠ "")
    (hall : ∀ m ∈ ms, m.type = "event" ∧ isFinalEv rsk sk rid m = false) :
    chatFold rsk sk r s ms =
      { s with fullText := chatTextFold rsk sk rid s.fullText ms } := by
  induction ms generalizing s with
  | nil => rfl
  | cons m ms ih =>
      have hm := hall m (List.mem_cons_self m ms)
      have hstep := chatStep_event_nonfinal rsk sk r rid s m hl hr hne hm.1 hm.2
      have hrest : ∀ m' ∈ ms, m'.type = "event" ∧ isFinalEv rsk sk rid m' = false :=
        fun m' hm' => hall m' (List.mem_cons_of_mem m hm')
      show chatFold rsk sk r (chatStep rsk sk r s m) ms = _
      rw [hstep]
      rw [ih { s with fullText :=
                if capturesEv rsk sk rid m = true then m.payloadDataText.getD ""
                else s.fullText } hl hr hrest]
      rfl

/-! ## The whole client at connection loss -/

/-- The client-level state the ws close handler can see: the connected
flag, the correlator (this.pending and the outcomes it has delivered), and
the states of the sendMessage calls whose event handlers are attached to
the socket. -/
structure ClientState where
  connected : Bool
  corr : CorrState
  runs : List ChatState
deriving DecidableEq

/-- The ws close handler (version A lines 431-446; version B lines 937-952
is identical): connected = false, socket and connectPromise dropped, every
PendingRequest in this.pending rejected with 'Gateway connection closed'
and the map cleared.  No statement in the handler refers to the
sendMessage calls, so the runs are left exactly as they were. -/
def onSocketClose (c : ClientState) : ClientState :=
  { connected := false,
    corr := corrStep c.corr CorrEv.socketClose,
    runs := c.runs }

/-! ## Concrete fixtures for witnesses and counterexamples -/

/-- A sendMessage call tracking runId r1, no text yet, still pending. -/
def runTracked0 : ChatState :=
  { runId := some "r1", fullText := "", completed := false,
    listening := true, outcome := none }

/-- An assistant content event for runId r1 carrying a sessionKey that
differs from the client's connect-time session key. -/
def crossSessionAgentMsg : WireMsg :=
  { type := "event", id := none, ok := none, event := some "agent",
    errorMessage := none, payloadRunId := some "r1",
    payloadSessionKey := some "other-session",
    payloadStream := some "assistant", payloadDataText := some "T",
    payloadState := none }

/-- An assistant content event for runId r1 with cumulative text t. -/
def contentMsg (t : String) : WireMsg :=
  { type := "event", id := none, ok := none, event := some "agent",
    errorMessage := none, payloadRunId := some "r1",
    payloadSessionKey := none, payloadStream := some "assistant",
    payloadDataText := some t, payloadState := none }

/-- The finality event for runId r1. -/
def finalMsg0 : WireMsg :=
  { type := "event", id := none, ok := none, event := some "chat",
    errorMessage := none, payloadRunId := some "r1",
    payloadSessionKey := none, payloadStream := none,
    payloadDataText := none, payloadState := some "final" }

/-- A sendMessage call whose chat.send response has not arrived yet:
runId still null. -/
def chatFresh0 : ChatState :=
  { runId := none, fullText := "", completed := false,
    listening := true, outcome := none }

/-- A run that accumulated partial text and is still awaiting finality. -/
def pendingRun0 : ChatState :=
  { runId := some "r9", fullText := "partial", completed := false,
    listening := true, outcome := none }

/-- A connected client with one pending request and one active run. -/
def client0 : ClientState :=
  { connected := true,
    corr := { pending := ["q7"], outcomes := [] },
    runs := [pendingRun0] }

/-! ## Claim theorems -/

lemma intercalate_go_cons (a s b : String) (l : List String) :
    String.intercalate.go a s (b :: l) =
      String.intercalate.go (a ++ s ++ b) s l := rfl

lemma intercalate_go_nil (a s : String) : String.intercalate.go a s [] = a := rfl

/-- C5: the canonical signature message is the fixed-order pipe-joined
concatenation of version tag, device id, client kind, client mode, role,
comma-joined scopes, millisecond timestamp, pairing token and nonce; for
version v2, device d1, role operator, scopes a,b, timestamp 1000, empty
token and nonce n1 it is exactly v2|d1|cli|backend|operator|a,b|1000||n1. -/
theorem signature_message_order :
    (∀ (d r : String) (sc : List String) (t : Nat) (tok n : String),
       buildSignatureMessage d r sc t tok n =
         "v2" ++ "|" ++ d ++ "|" ++ "cli" ++ "|" ++ "backend" ++ "|" ++ r ++
         "|" ++ String.intercalate "," sc ++ "|" ++ toString t ++ "|" ++ tok ++
         "|" ++ n) ∧
    buildSignatureMessage "d1" "operator" ["a", "b"] 1000 "" "n1" =
      "v2|d1|cli|backend|operator|a,b|1000||n1" := by
  constructor
  · intro d r sc t tok n
    show String.intercalate.go "v2" "|" _ = _
    rw [intercalate_go_cons, intercalate_go_cons, intercalate_go_cons,
        intercalate_go_cons, intercalate_go_cons, intercalate_go_cons,
        intercalate_go_cons, intercalate_go_cons, intercalate_go_nil]
  · decide

/-- C6 counterexample: for a concrete key, version A's
generateDeviceIdentity hashes the PEM text of the public key, so the
device id is not the hex SHA-256 of the raw 32 key bytes. -/
theorem device_id_hashes_pem_counterexample :
    deviceIdA pem0 ≠ specDeviceId rawKey0 := by decide

/-- C6 amended: version B derives the device id as the lowercase hex
SHA-256 of the raw 32-byte public key (slice(-32) of the SPKI DER), as the
claim states; version A instead hashes the PEM text of the key, giving a
different id. -/
theorem device_id_derivations :
    deviceIdB der0 = specDeviceId rawKey0 ∧
    (∀ raw : List Nat, raw.length = 32 →
       extractRawKeyDer (spkiHeader ++ raw) = raw) ∧
    (deviceIdB der0).data.all (fun c => c ∈ hexDigitChars) = true ∧
    deviceIdA pem0 ≠ deviceIdB der0 := by
  refine ⟨by decide, ?_, by decide, by decide⟩
  intro raw h
  have hlen : (spkiHeader ++ raw).length - 32 = spkiHeader.length := by
    simp [h, spkiHeader]
  rw [extractRawKeyDer, hlen, List.drop_left]

/-- C6 amended witness at the concrete key. -/
theorem device_id_derivations_app :
    extractRawKeyDer (spkiHeader ++ rawKey0) = rawKey0 :=
  device_id_derivations.2.1 rawKey0 (by decide)

/-- C7 counterexample: version B's supervisor schedules nothing once ten
consecutive reconnect attempts have failed. -/
theorem reconnect_gives_up_counterexample :
    scheduleReconnectB 10 = none := rfl

/-- C7 amended: version A's supervisor schedules a reconnect attempt for
every attempt count (retries indefinitely); version B's schedules one
exactly while the attempt count is below 10 and permanently gives up at
10. -/
theorem reconnect_retry_by_version :
    (∀ (l n a : Nat), (scheduleReconnectA l n a).isSome = true) ∧
    (∀ a : Nat, (scheduleReconnectB a).isSome = true ↔ a < 10) := by
  constructor
  · intro l n a
    simp [scheduleReconnectA]
  · intro a
    unfold scheduleReconnectB
    split_ifs with h <;> simp <;> omega

/-- C8 counterexample: version B's backoff computation after four
accumulated failed attempts yields 16000 ms whatever the preceding
connected duration was; it does not restart from attempt 0 (1000 ms). -/
theorem backoff_reset_missing_counterexample :
    scheduleReconnectB 4 = some 16000 ∧ (16000 : Nat) ≠ 1000 := by decide

/-- C8 amended: version A resets the attempt count to 0 (1000 ms delay)
when the prior connection lasted more than 60000 ms; version B has no
duration-based reset and computes min(1000*2^attempts, 30000) from the
accumulated attempt count. -/
theorem backoff_reset_by_version :
    (∀ (l n a : Nat), 0 < l → 60000 < n - l →
       scheduleReconnectA l n a = some (0, 1000)) ∧
    (∀ a : Nat, a < 10 →
       scheduleReconnectB a = some (min (1000 * 2 ^ a) 30000)) := by
  constructor
  · intro l n a h1 h2
    simp [scheduleReconnectA, h1, h2]
  · intro a h
    unfold scheduleReconnectB
    rw [if_neg (by omega)]

/-- C8 amended witness: a client connected since t=1 disconnecting at
t=70001 with five accumulated attempts restarts at 1000 ms under version
A; version B with three attempts waits 8000 ms. -/
theorem backoff_reset_by_version_app :
    scheduleReconnectA 1 70002 5 = some (0, 1000) ∧
    scheduleReconnectB 3 = some 8000 := by
  constructor
  · exact backoff_reset_by_version.1 1 70002 5 (by decide) (by decide)
  · have h := backoff_reset_by_version.2 3 (by decide)
    simpa using h

/-- C1: over any happening trace in which an id is registered exactly once
and its deadline timer fires with no later re-registration, exactly one
terminal outcome is delivered for that id (never both a resolution and a
rejection); and a response envelope arriving when the id is no longer
pending (e.g. after its deadline removed the entry) changes nothing:
resolves nothing, raises no error. -/
theorem correlator_exactly_one_outcome :
    (∀ (tr1 tr2 : List CorrEv) (id : String),
       regs id (tr1 ++ CorrEv.timeoutFire id :: tr2) = 1 →
       regs id tr2 = 0 →
       countOut id (corrRun (tr1 ++ CorrEv.timeoutFire id :: tr2)) = 1) ∧
    (∀ (s : CorrState) (id : String) (ok : Bool) (payload code msg : String),
       id ∉ s.pending →
       corrStep s (CorrEv.response id ok payload code msg) = s) := by
  constructor
  · intro tr1 tr2 id h1 h2
    have hinit : corrInit.pending.Nodup := by simp [corrInit]
    have hnodup : (corrRunFrom corrInit tr1).pending.Nodup :=
      corrRunFrom_nodup corrInit tr1 hinit
    have hsplit : corrRun (tr1 ++ CorrEv.timeoutFire id :: tr2) =
        corrRunFrom
          (corrStep (corrRunFrom corrInit tr1) (CorrEv.timeoutFire id)) tr2 := by
      simp [corrRun, corrRunFrom, List.foldl_append]
    have hle := corrRunFrom_sum_le id corrInit
      (tr1 ++ CorrEv.timeoutFire id :: tr2) hinit
    have hge := corrRunFrom_sum_one id corrInit
      (tr1 ++ CorrEv.timeoutFire id :: tr2) (by omega)
    have hz : membN id (corrRunFrom corrInit (tr1 ++ CorrEv.timeoutFire id :: tr2)) = 0 := by
      have hbase : membN id
          (corrStep (corrRunFrom corrInit tr1) (CorrEv.timeoutFire id)) = 0 :=
        membN_timeoutFire_self id (corrRunFrom corrInit tr1)
      have := corrRunFrom_memb_zero id
        (corrStep (corrRunFrom corrInit tr1) (CorrEv.timeoutFire id)) tr2 h2 hbase
      have heq : corrRunFrom corrInit (tr1 ++ CorrEv.timeoutFire id :: tr2) =
          corrRunFrom
            (corrStep (corrRunFrom corrInit tr1) (CorrEv.timeoutFire id)) tr2 := by
        simp [corrRunFrom, List.foldl_append]
      rw [heq]
      exact this
    have hcl : countOut id corrInit = 0 := by simp [corrInit, countOut]
    have hml : membN id corrInit = 0 := by simp [corrInit, membN]
    rw [corrRun]
    omega
  · intro s id ok payload code msg h
    simp [corrStep, h]

/-- C1 witness: a concrete trace register, deadline fire, late response
yields exactly one outcome; a response with no matching entry is a
no-op. -/
theorem correlator_exactly_one_outcome_app :
    countOut "a" (corrRun ([CorrEv.register "a"] ++ CorrEv.timeoutFire "a" ::
        [CorrEv.response "a" true "p" "" ""])) = 1 ∧
    corrStep corrInit (CorrEv.response "b" true "p" "" "") = corrInit := by
  constructor
  · exact correlator_exactly_one_outcome.1 [CorrEv.register "a"]
      [CorrEv.response "a" true "p" "" ""] "a" (by decide) (by decide)
  · exact correlator_exactly_one_outcome.2 corrInit "b" true "p" "" ""
      (by decide)

/-- C2 counterexample: at a concrete client with one pending request and
one active streaming run, the close handler rejects the pending request
with the connection-closed error but leaves the active run entirely
unsettled (outcome still none, state unchanged), contradicting the claim
that every active run is rejected with a connection-closed error. -/
theorem connection_close_leaves_runs_unsettled :
    (onSocketClose client0).corr.outcomes = [("q7", ReqOutcome.connClosed)] ∧
    (onSocketClose client0).runs = [pendingRun0] ∧
    pendingRun0.outcome = none := by decide

/-- C2 amended: on socket close every currently pending request is
rejected with the connection-closed error exactly once (one outcome per
pending id, the map is cleared, and a later deadline fire for any id adds
nothing); active streaming runs are not rejected by the close handler they
are left untouched, and each is only settled later by its own overall
timeout, with the chat-timeout error rather than a connection-closed
one. -/
theorem connection_close_behavior :
    (∀ c : ClientState,
       (onSocketClose c).corr.pending = [] ∧
       (onSocketClose c).corr.outcomes =
         c.corr.outcomes ++
           c.corr.pending.map (fun i => (i, ReqOutcome.connClosed)) ∧
       (onSocketClose c).runs = c.runs ∧
       (∀ id : String,
          corrStep (onSocketClose c).corr (CorrEv.timeoutFire id) =
            (onSocketClose c).corr)) ∧
    (∀ run : ChatState, run.completed = false → run.outcome = none →
       (chatTimeout run).outcome =
         some (Except.error "Chat response timeout")) := by
  constructor
  · intro c
    refine ⟨rfl, rfl, rfl, ?_⟩
    intro id
    have : id ∉ (onSocketClose c).corr.pending := by
      simp [onSocketClose, corrStep]
    simp [corrStep, this]
  · intro run h1 h2
    simp [chatTimeout, h1, settleOutcome, h2]

/-- C2 amended witness at the concrete client and run. -/
theorem connection_close_behavior_app :
    (onSocketClose client0).runs = [pendingRun0] ∧
    (chatTimeout pendingRun0).outcome =
      some (Except.error "Chat response timeout") :=
  ⟨(connection_close_behavior.1 client0).2.2.1,
   connection_close_behavior.2 pendingRun0 (by decide) (by decide)⟩

/-- C3 counterexample: an event whose payload runId equals the tracked
runId but whose sessionKey differs from the client's is accepted by
version A (its text is captured) yet dropped by version B, so the claim
that runId is the only matching key fails for version B's filter. -/
theorem event_matching_counterexample :
    crossSessionAgentMsg.payloadRunId = runTracked0.runId ∧
    (chatStepA "q" runTracked0 crossSessionAgentMsg).fullText = "T" ∧
    chatStepB "glasses-session" "q" runTracked0 crossSessionAgentMsg =
      runTracked0 := by decide

/-- C3 amended: during a streaming call, version A attributes an event to
the tracked run iff its payload runId equals the run's runId (the session
key is not consulted); version B attributes it iff the payload runId
matches and additionally the payload sessionKey equals the client's
session key. -/
theorem event_matching_by_version :
    ∀ (sk r rid : String) (s : ChatState) (m : WireMsg),
      s.listening = true → s.runId = some rid → rid ≠ "" →
      m.type = "event" →
      (chatStepA r s m =
         if m.payloadRunId = some rid then processChatEvent s m else s) ∧
      (chatStepB sk r s m =
         if m.payloadRunId = some rid ∧ m.payloadSessionKey = some sk
         then processChatEvent s m else s) := by
  intro sk r rid s m hl hr hne ht
  constructor
  · by_cases hpr : m.payloadRunId = some rid
    · rw [if_pos hpr]
      exact chatStep_event_accepted false "" r rid s m hl hr hne ht
        ((acceptedEv_iff false "" rid m).mpr ⟨hpr, by simp⟩)
    · rw [if_neg hpr]
      have hra : acceptedEv false "" rid m = false := by
        cases hb : acceptedEv false "" rid m
        · rfl
        · exact absurd ((acceptedEv_iff false "" rid m).mp hb).1 hpr
      exact chatStep_event_rejected false "" r rid s m hr ht hra
  · by_cases hpb : m.payloadRunId = some rid ∧ m.payloadSessionKey = some sk
    · rw [if_pos hpb]
      exact chatStep_event_accepted true sk r rid s m hl hr hne ht
        ((acceptedEv_iff true sk rid m).mpr ⟨hpb.1, fun _ => hpb.2⟩)
    · rw [if_neg hpb]
      have hra : acceptedEv true sk rid m = false := by
        cases hb : acceptedEv true sk rid m
        · rfl
        · obtain ⟨hx, hy⟩ := (acceptedEv_iff true sk rid m).mp hb
          exact absurd ⟨hx, hy rfl⟩ hpb
      exact chatStep_event_rejected true sk r rid s m hr ht hra

/-- C3 amended witness at the concrete tracked run and cross-session
event. -/
theorem event_matching_by_version_app :
    chatStepA "q" runTracked0 crossSessionAgentMsg =
      (if crossSessionAgentMsg.payloadRunId = some "r1"
       then processChatEvent runTracked0 crossSessionAgentMsg
       else runTracked0) ∧
    chatStepB "glasses-session" "q" runTracked0 crossSessionAgentMsg =
      (if crossSessionAgentMsg.payloadRunId = some "r1" ∧
          crossSessionAgentMsg.payloadSessionKey = some "glasses-session"
       then processChatEvent runTracked0 crossSessionAgentMsg
       else runTracked0) :=
  event_matching_by_version "glasses-session" "q" "r1" runTracked0
    crossSessionAgentMsg (by decide) (by decide) (by decide) (by decide)

/-- C4: a streaming call that completes via a finality event resolves with
the text of the last matching cumulative content event each content event
overwrites the accumulated text rather than appending to it and when no
content event preceded finality it resolves with the 'No response'
sentinel (jsOr maps only the empty accumulation to the sentinel). -/
theorem streaming_resolved_value :
    ∀ (rsk : Bool) (sk r rid : String) (s : ChatState) (ms : List WireMsg)
      (fin : WireMsg),
      s.listening = true → s.runId = some rid → rid ≠ "" →
      s.outcome = none →
      (∀ m ∈ ms, m.type = "event" ∧ isFinalEv rsk sk rid m = false) →
      fin.type = "event" → isFinalEv rsk sk rid fin = true →
      (chatFold rsk sk r s (ms ++ [fin])).outcome =
        some (Except.ok
          (jsOr (chatTextFold rsk sk rid s.fullText ms) "No response")) := by
  intro rsk sk r rid s ms fin hl hr hne ho hall htf hf
  have hinv := chatFold_nonfinal rsk sk r rid s ms hl hr hne hall
  have happ : chatFold rsk sk r s (ms ++ [fin]) =
      chatStep rsk sk r (chatFold rsk sk r s ms) fin := by
    simp [chatFold, List.foldl_append]
  rw [happ, hinv]
  exact chatStep_event_final rsk sk r rid _ fin hl hr hne htf hf ho

/-- C4 witness: cumulative events A, AB, ABC then finality resolve exactly
ABC; finality with no prior content event resolves 'No response'. -/
theorem streaming_resolved_value_app :
    (chatFold false "" "q" runTracked0
        ([contentMsg "A", contentMsg "AB", contentMsg "ABC"] ++
         [finalMsg0])).outcome = some (Except.ok "ABC") ∧
    (chatFold false "" "q" runTracked0 ([] ++ [finalMsg0])).outcome =
      some (Except.ok "No response") := by
  constructor
  · have h := streaming_resolved_value false "" "q" "r1" runTracked0
      [contentMsg "A", contentMsg "AB", contentMsg "ABC"] finalMsg0
      (by decide) (by decide) (by decide) (by decide) (by decide)
      (by decide) (by decide)
    rw [h]
    decide
  · have h := streaming_resolved_value false "" "q" "r1" runTracked0
      [] finalMsg0 (by decide) (by decide) (by decide) (by decide)
      (by decide) (by decide) (by decide)
    rw [h]
    decide

/-- C9: if a streaming call's overall timeout fires before finality, the
call is rejected with the stream-timeout error; that settlement is final,
so any events delivered afterwards (including for the same runId) produce
no outcome; and an event carrying a runId different from a live call's
tracked runId never changes that call's state. -/
theorem stream_timeout_rejects :
    ∀ (rsk : Bool) (sk r : String) (s : ChatState) (evs : List ChatEv),
      s.completed = false → s.outcome = none →
      ((chatTimeout s).outcome =
         some (Except.error "Chat response timeout") ∧
       (chatRun rsk sk r (chatTimeout s) evs).outcome =
         some (Except.error "Chat response timeout")) ∧
      (∀ (s' : ChatState) (m : WireMsg) (rid rid' : String),
         m.type = "event" → m.payloadRunId = some rid →
         s'.runId = some rid' → rid ≠ rid' →
         chatStep rsk sk r s' m = s') := by
  intro rsk sk r s evs hc ho
  have h1 : (chatTimeout s).outcome =
      some (Except.error "Chat response timeout") := by
    simp [chatTimeout, hc, settleOutcome, ho]
  refine ⟨⟨h1, chatRun_outcome_mono rsk sk r _ evs _ h1⟩, ?_⟩
  intro s' m rid rid' ht hpr hr hne
  have hbne : (some rid == some rid' : Bool) = false := by
    simp [hne]
  have hra : acceptedEv rsk sk rid' m = false := by
    simp [acceptedEv, hpr, hbne]
  exact chatStep_event_rejected rsk sk r rid' s' m hr ht hra

/-- C9 witness: after the timeout fires on a pending call tracking r1, a
late finality event for r1 still leaves the stream-timeout rejection as
the only outcome; and an r1 event does not touch a call tracking r9. -/
theorem stream_timeout_rejects_app :
    (chatRun false "" "q" (chatTimeout runTracked0)
        [ChatEv.wire finalMsg0]).outcome =
      some (Except.error "Chat response timeout") ∧
    chatStep false "" "q" pendingRun0 finalMsg0 = pendingRun0 :=
  ⟨((stream_timeout_rejects false "" "q" runTracked0 [ChatEv.wire finalMsg0]
      (by decide) (by decide)).1).2,
   (stream_timeout_rejects false "" "q" runTracked0 [] (by decide)
      (by decide)).2 pendingRun0 finalMsg0 "r1" "r9" (by decide) (by decide)
      (by decide) (by decide)⟩

/-- C10: while a streaming call's local runId is still unset (the initial
chat.send response has not been processed), its event handler drops every
event unchanged in both versions, so an event carrying the runId the
server is about to assign contributes nothing and cannot complete the
run. -/
theorem events_before_runid_dropped :
    ∀ (sk r : String) (s : ChatState) (m : WireMsg),
      s.runId = none → m.type = "event" →
      chatStepA r s m = s ∧ chatStepB sk r s m = s := by
  have key : ∀ (rsk : Bool) (sk r : String) (s : ChatState) (m : WireMsg),
      s.runId = none → m.type = "event" → chatStep rsk sk r s m = s := by
    intro rsk sk r s m hrn ht
    by_cases hl : s.listening = false
    · simp [chatStep, hl]
    · simp only [chatStep]
      rw [if_neg hl, if_neg (by simp [ht]), if_neg (by simp [truthyStr, hrn])]
  intro sk r s m hrn ht
  exact ⟨key false "" r s m hrn ht, key true sk r s m hrn ht⟩

/-- C10 witness: an event carrying the soon-to-be-assigned runId r1 with
text X, arriving before the response sets the local runId, is dropped by
both versions. -/
theorem events_before_runid_dropped_app :
    chatStepA "q" chatFresh0 (contentMsg "X") = chatFresh0 ∧
    chatStepB "glasses-session" "q" chatFresh0 (contentMsg "X") =
      chatFresh0 :=
  events_before_runid_dropped "glasses-session" "q" chatFresh0
    (contentMsg "X") (by decide) (by decide)

end OpenClawGlasses
